import Mathlib

/-!
Shallow embedding of the CLEAR25 station-evaluation core
(`webapp/dashboard/services/evaluate.py` and the AQI conversion /
geospatial matching parts of `webapp/dashboard/services/waqi.py`),
together with proofs of the specification claims about it.

Numbers are modelled as exact rationals (`ℚ`); geographic coordinates and
the haversine distance, which involve trigonometry, are modelled over `ℝ`.
Python dicts are modelled as association lists with first-match lookup.
-/

/-- Python's `round(x, 1)`: round to one decimal, ties going to the even
multiple of 1/10 (banker's rounding), on exact rationals. -/
def round1 (x : ℚ) : ℚ :=
  let n : ℤ := ⌊10 * x⌋
  let f : ℚ := 10 * x - n
  let r : ℤ := if 1/2 < f then n + 1 else if f < 1/2 then n else if n % 2 = 0 then n else n + 1
  (r : ℚ) / 10

/-- One row of the `ALERT_LEVELS` table of `evaluate.py`. -/
structure AlertLevel where
  name : String
  min : ℚ
  max : ℚ
  hex : String
  text_color : String
  health : String
deriving DecidableEq, Inhabited

/-- The `ALERT_LEVELS` table (`evaluate.py`, lines 9-20).  The `1e9` upper
bound of EXTREME is the literal float `1000000000`. -/
def ALERT_LEVELS : List AlertLevel := [
  { name := "LOW",       min := 0,   max := 20,    hex := "#22c55e", text_color := "black",
    health := "No significant risk. No action required." },
  { name := "MODERATE",  min := 20,  max := 60,    hex := "#eab308", text_color := "black",
    health := "Sensitive groups (children, elderly, respiratory conditions) should reduce outdoor activity." },
  { name := "HIGH",      min := 60,  max := 80,    hex := "#f97316", text_color := "black",
    health := "General population affected. Reduce prolonged outdoor exertion. Use N95/KN95 mask outdoors." },
  { name := "VERY HIGH", min := 80,  max := 120,   hex := "#ef4444", text_color := "white",
    health := "Significant risk for all. Avoid outdoor exertion. Keep doors and windows closed." },
  { name := "EXTREME",   min := 120, max := 1000000000, hex := "#7f1d1d", text_color := "white",
    health := "Emergency conditions. Stay indoors. Close windows. Run HEPA filter. No indoor pollution sources." }]

/-- `get_alert_level` (`evaluate.py`, lines 40-44): scan `ALERT_LEVELS` in
reverse, return the first level whose `min` is `≤ pm25`, else the first level. -/
def get_alert_level (pm25 : ℚ) : AlertLevel :=
  (ALERT_LEVELS.reverse.find? (fun lvl => decide (lvl.min ≤ pm25))).getD (ALERT_LEVELS.getD 0 default)

/-- Thresholds of the three-rule detection system (`evaluate.py`, lines 29-32). -/
def RULE1_TRIGGER : ℚ := 40

/-- Distant-station trigger threshold for rule 2 (`evaluate.py`, line 30). -/
def RULE2_DISTANT_TRIGGER : ℚ := 35

/-- Intermediate confirmation threshold for rule 2 (`evaluate.py`, line 31). -/
def RULE2_INTERMEDIATE : ℚ := 20

/-- Corridor-station trigger threshold for rule 3 (`evaluate.py`, line 32). -/
def RULE3_CORRIDOR_TRIGGER : ℚ := 40

/-- `lead_time_str` (`evaluate.py`, lines 47-65).  `tier` is accepted but
unused, exactly as in the source. -/
def lead_time_str (tier : ℤ) (dist : ℚ) : String :=
  if dist > 1000 then "24-72 hrs"
  else if dist > 600 then "18-48 hrs"
  else if dist > 400 then "12-36 hrs"
  else if dist > 250 then "8-24 hrs"
  else if dist > 150 then "4-18 hrs"
  else "2-12 hrs"

/-- An input station record, with the keys `evaluate` reads from each
station dict. -/
structure Station where
  id : String
  city_name : String
  distance : ℚ
  direction : String
  tier : ℤ
  R : ℚ
  slope : ℚ
  intercept : ℚ
  target_city : String
deriving DecidableEq, Inhabited

/-- A per-station result row as built by `evaluate` (`evaluate.py`, lines 119-128). -/
structure StationResult where
  station : String
  id : String
  dist : ℚ
  dir : String
  tier : ℤ
  R : ℚ
  pm25 : ℚ
  predicted : ℚ
  level_name : String
  level_hex : String
  level_text_color : String
  health : String
  lead : String
  target_city : String
deriving DecidableEq, Inhabited

/-- The per-station weight `max(R * R, 0.1)` of `_weighted_prediction`
(`evaluate.py`, line 83). -/
def station_weight (R : ℚ) : ℚ := max (R * R) (1/10)

/-- The accumulated `weighted_sum` of `_weighted_prediction` (`evaluate.py`,
lines 75-85). -/
def weighted_sum (city_rows : List StationResult) : ℚ :=
  (city_rows.map (fun r => station_weight r.R * r.predicted)).sum

/-- The accumulated `weight_total` of `_weighted_prediction` (`evaluate.py`,
lines 75-85). -/
def weight_total (city_rows : List StationResult) : ℚ :=
  (city_rows.map (fun r => station_weight r.R)).sum

/-- `_weighted_prediction` (`evaluate.py`, lines 68-90): R²-weighted average
of the per-station predictions, falling back to the arithmetic mean when the
total weight is not positive, and to `0` on the empty list. -/
def weighted_prediction (city_rows : List StationResult) : ℚ :=
  if 0 < weight_total city_rows then weighted_sum city_rows / weight_total city_rows
  else if ¬ city_rows.isEmpty then (city_rows.map (fun r => r.predicted)).sum / city_rows.length
  else 0

/-- The per-station body of the first loop of `evaluate` (`evaluate.py`,
lines 112-128): stations absent from `readings` yield no row; otherwise the
regression is applied and the result row is assembled. -/
def predictRow (readings : List (String × ℚ)) (st : Station) : Option StationResult :=
  match readings.lookup st.id with
  | none => none
  | some pm =>
    let pred := st.slope * pm + st.intercept
    let lvl := get_alert_level pred
    some { station := st.city_name, id := st.id, dist := st.distance, dir := st.direction,
           tier := st.tier, R := st.R, pm25 := pm, predicted := round1 pred,
           level_name := lvl.name, level_hex := lvl.hex, level_text_color := lvl.text_color,
           health := lvl.health, lead := lead_time_str st.tier st.distance,
           target_city := st.target_city }

/-- The sorted `results` list of `evaluate` (`evaluate.py`, lines 111-129):
one row per station with a current reading, stably sorted descending by
`predicted`. -/
def stationResults (stations : List Station) (readings : List (String × ℚ)) :
    List StationResult :=
  (stations.filterMap (predictRow readings)).mergeSort (fun a b => decide (b.predicted ≤ a.predicted))

/-- One `setdefault`-and-append step of the grouping loop of `evaluate`
(`evaluate.py`, line 135): append `r` to its city's entry, creating the
entry at the end when the city is new. -/
def groupInsert (acc : List (String × List StationResult)) (r : StationResult) :
    List (String × List StationResult) :=
  if acc.any (fun p => p.1 == r.target_city) then
    acc.map (fun p => if p.1 == r.target_city then (p.1, p.2 ++ [r]) else p)
  else acc ++ [(r.target_city, [r])]

/-- The `city_results` grouping of `evaluate` (`evaluate.py`, lines 132-135):
`setdefault`-style grouping by `target_city`, keys in order of first
appearance, rows in list order. -/
def groupByCity (results : List StationResult) : List (String × List StationResult) :=
  results.foldl groupInsert []

/-- The three-rule trigger logic of `evaluate` for one city (`evaluate.py`,
lines 146-182): returns `some (rule, trigger_stations)` when a rule fires. -/
def ruleDecision (previous_readings : List (String × ℚ)) (city_rows : List StationResult) :
    Option (String × List String) :=
  let regional_stations := city_rows.filter (fun r => decide (r.tier = 1 ∧ r.dist ≤ 600))
  let distant_stations := city_rows.filter (fun r => decide (r.dist > 600))
  let corridor_stations := city_rows.filter (fun r => decide (r.tier ≥ 2 ∧ r.dist ≤ 400))
  match regional_stations.find? (fun r => decide (r.pm25 ≥ RULE1_TRIGGER)) with
  | some r => some ("rule1", [r.station])
  | none =>
    let rule2 :=
      if ¬ previous_readings.isEmpty then
        let distant_triggers :=
          distant_stations.filter (fun r => decide (r.pm25 ≥ RULE2_DISTANT_TRIGGER))
        let intermediate_confirmed := city_rows.filter (fun r =>
          decide (200 ≤ r.dist ∧ r.dist ≤ 600 ∧ r.pm25 ≥ RULE2_INTERMEDIATE ∧
            (previous_readings.lookup r.id).getD 0 ≥ RULE2_INTERMEDIATE))
        match distant_triggers, intermediate_confirmed with
        | d :: _, i :: _ => some ("rule2", [d.station, i.station])
        | _, _ => none
      else none
    match rule2 with
    | some x => some x
    | none =>
      match corridor_stations.find? (fun r => decide (r.pm25 ≥ RULE3_CORRIDOR_TRIGGER)) with
      | some r => some ("rule3", [r.station])
      | none => none

/-- One `city_alerts` entry (`evaluate.py`, lines 186-215). -/
structure CityAlert where
  alert : Bool
  rule : Option String
  trigger_stations : List String
  predicted_pm25 : ℚ
  weighted_pm25 : ℚ
  max_pm25 : ℚ
  level_name : String
  level_hex : String
  level_text_color : String
  health : String
deriving DecidableEq, Inhabited

/-- The default (no surfaced alert) entry of `evaluate` (`evaluate.py`,
lines 202-215), built from `ALERT_LEVELS[0]`. -/
def lowAlert (weighted_pred max_predicted : ℚ) : CityAlert :=
  let low_lvl := ALERT_LEVELS.getD 0 default
  { alert := false, rule := none, trigger_stations := [],
    predicted_pm25 := round1 weighted_pred, weighted_pm25 := round1 weighted_pred,
    max_pm25 := round1 max_predicted, level_name := low_lvl.name, level_hex := low_lvl.hex,
    level_text_color := low_lvl.text_color, health := low_lvl.health }

/-- The per-city body of the second loop of `evaluate` (`evaluate.py`, lines
138-215): rule evaluation, LOW-band suppression, and assembly of the city
alert entry. -/
def cityDecision (previous_readings : List (String × ℚ)) (city_rows : List StationResult) :
    CityAlert :=
  let weighted_pred := weighted_prediction city_rows
  let max_predicted := ((city_rows.map (fun r => r.predicted)).max?).getD 0
  match ruleDecision previous_readings city_rows with
  | some (rule, trigs) =>
    let lvl := get_alert_level weighted_pred
    if lvl.name ≠ "LOW" then
      { alert := true, rule := some rule, trigger_stations := trigs,
        predicted_pm25 := round1 weighted_pred, weighted_pm25 := round1 weighted_pred,
        max_pm25 := round1 max_predicted, level_name := lvl.name, level_hex := lvl.hex,
        level_text_color := lvl.text_color, health := lvl.health }
    else lowAlert weighted_pred max_predicted
  | none => lowAlert weighted_pred max_predicted

/-- The value returned by `evaluate` (`evaluate.py`, line 217). -/
structure EvalResult where
  stations : List StationResult
  city_alerts : List (String × CityAlert)
deriving DecidableEq

/-- `evaluate` (`evaluate.py`, lines 93-217).  `previous_readings = []`
models the `None`/`{}` default. -/
def evaluate (stations : List Station) (readings previous_readings : List (String × ℚ)) :
    EvalResult :=
  { stations := stationResults stations readings,
    city_alerts := (groupByCity (stationResults stations readings)).map
      (fun p => (p.1, cityDecision previous_readings p.2)) }

/-- `_AQI_BREAKPOINTS` (`waqi.py`, lines 16-24): `(aqi_lo, aqi_hi, c_lo, c_hi)`. -/
def AQI_BREAKPOINTS : List (ℤ × ℤ × ℚ × ℚ) := [
  (0,   50,   0,     12),
  (51,  100,  121/10,  354/10),
  (101, 150,  355/10,  554/10),
  (151, 200,  555/10,  1504/10),
  (201, 300,  1505/10, 2504/10),
  (301, 400,  2505/10, 3504/10),
  (401, 500,  3505/10, 5004/10)]

/-- `_aqi_to_ugm3` (`waqi.py`, lines 27-35): convert a PM2.5 AQI value to
µg/m³ by EPA breakpoint interpolation, `0.0` for `aqi ≤ 0`, and the AQI
value itself above the table. -/
def aqi_to_ugm3 (aqi : ℤ) : ℚ :=
  if aqi ≤ 0 then 0
  else
    match AQI_BREAKPOINTS.find? (fun bp => decide (bp.1 ≤ aqi ∧ aqi ≤ bp.2.1)) with
    | some (aqi_lo, aqi_hi, c_lo, c_hi) =>
      round1 (((aqi : ℚ) - aqi_lo) * (c_hi - c_lo) / ((aqi_hi : ℚ) - aqi_lo) + c_lo)
    | none => round1 ((aqi : ℚ) * 1)

/-- Python's `math.radians`. -/
noncomputable def radians (x : ℝ) : ℝ := x * Real.pi / 180

/-- Python's `math.atan2`, by the standard sign cases. -/
noncomputable def atan2 (y x : ℝ) : ℝ :=
  if 0 < x then Real.arctan (y / x)
  else if x < 0 ∧ 0 ≤ y then Real.arctan (y / x) + Real.pi
  else if x < 0 ∧ y < 0 then Real.arctan (y / x) - Real.pi
  else if x = 0 ∧ 0 < y then Real.pi / 2
  else if x = 0 ∧ y < 0 then -(Real.pi / 2)
  else 0

/-- The local `a` of `_haversine` (`waqi.py`, line 55), with
`dlat = radians (lat2 - lat1)` and `dlon = radians (lon2 - lon1)` inlined. -/
noncomputable def hav_a (lat1 lon1 lat2 lon2 : ℝ) : ℝ :=
  Real.sin (radians (lat2 - lat1) / 2)^2 +
    Real.cos (radians lat1) * Real.cos (radians lat2) * Real.sin (radians (lon2 - lon1) / 2)^2

/-- `_haversine` (`waqi.py`, lines 50-56): great-circle distance in km,
Earth radius `R = 6371` km. -/
noncomputable def haversine (lat1 lon1 lat2 lon2 : ℝ) : ℝ :=
  6371 * 2 * atan2 (Real.sqrt (hav_a lat1 lon1 lat2 lon2))
    (Real.sqrt (1 - hav_a lat1 lon1 lat2 lon2))

/-- One external observation as assembled by `_fetch_waqi_bbox`
(`waqi.py`, lines 89-94); only the fields the matching loop reads. -/
structure Obs where
  lat : ℝ
  lon : ℝ
  pm25 : ℚ

/-- The per-station nearest-neighbor matching loop of `fetch_latest_pm25`
(`waqi.py`, lines 134-143): the running best distance `best_dist` starts at
30 km and only a strictly smaller distance replaces it; the station gets a
reading only if some observation beat the 30 km bound. -/
noncomputable def match_station (slat slon : ℝ) (waqi_stations : List Obs) : Option ℚ :=
  (waqi_stations.foldl (fun acc ws =>
    if haversine slat slon ws.lat ws.lon < acc.1 then
      (haversine slat slon ws.lat ws.lon, some ws.pm25)
    else acc) ((30 : ℝ), (none : Option ℚ))).2

/-!  ## Helper lemmas  -/

theorem station_weight_ge (R : ℚ) : 1/10 ≤ station_weight R := le_max_right _ _

theorem weight_total_ge (rows : List StationResult) :
    (rows.length : ℚ) * (1/10) ≤ weight_total rows := by
  induction rows with
  | nil => simp [weight_total]
  | cons r t ih =>
    simp only [weight_total, List.map_cons, List.sum_cons, List.length_cons] at *
    push_cast
    linarith [station_weight_ge r.R]

theorem weight_total_pos (rows : List StationResult) (h : rows ≠ []) :
    0 < weight_total rows := by
  have hlen : 1 ≤ rows.length := List.length_pos.mpr h
  have h1 : (1 : ℚ) * (1/10) ≤ (rows.length : ℚ) * (1/10) := by
    have : (1 : ℚ) ≤ (rows.length : ℚ) := by exact_mod_cast hlen
    nlinarith
  linarith [weight_total_ge rows]

/-!  ## Claims C7, C9, C10  -/

/-- C7: in the city aggregator every station's weight is `max(R², 0.1)`;
a station with `R = 0` gets weight exactly `0.1`, never `0`; and the
weighted city prediction is `Σ(weight·predicted) / Σ(weight)` (the
weighted branch, taken for every non-empty row list). -/
theorem c7_station_weight_spec :
    (∀ R : ℚ, station_weight R = max (R * R) (1/10)) ∧
    station_weight 0 = 1/10 ∧
    (∀ R : ℚ, station_weight R ≠ 0) ∧
    (∀ rows : List StationResult, rows ≠ [] →
      weighted_prediction rows = weighted_sum rows / weight_total rows) := by
  refine ⟨fun R => rfl, by norm_num [station_weight], fun R => ?_, fun rows h => ?_⟩
  · have := station_weight_ge R
    intro h0
    rw [h0] at this
    norm_num at this
  · rw [weighted_prediction, if_pos (weight_total_pos rows h)]

/-- A concrete station result row with `R = 0`, used in witnesses. -/
def sampleRowR0 : StationResult :=
  { station := "A", id := "a", dist := 300, dir := "NW", tier := 1, R := 0, pm25 := 45,
    predicted := 45, level_name := "MODERATE", level_hex := "", level_text_color := "",
    health := "", lead := "", target_city := "T" }

/-- A concrete station result row with `R = 1/2`, used in witnesses. -/
def sampleRowR5 : StationResult :=
  { station := "A", id := "a", dist := 300, dir := "NW", tier := 1, R := 1/2, pm25 := 45,
    predicted := 45, level_name := "MODERATE", level_hex := "", level_text_color := "",
    health := "", lead := "", target_city := "T" }

/-- Witness for C7 at a concrete station row list. -/
theorem c7_weight_witness :
    station_weight 0 = 1/10 ∧
    weighted_prediction [sampleRowR0] = weighted_sum [sampleRowR0] / weight_total [sampleRowR0] :=
  ⟨c7_station_weight_spec.2.1, c7_station_weight_spec.2.2.2 _ (by simp)⟩

/-- C9: the weighted aggregator never divides by zero: the total weight is
at least `0.1` per row, hence strictly positive for non-empty input, the
weighted-average branch is taken for non-empty input (the arithmetic-mean
fallback is unreachable), and the empty list yields `0` without division. -/
theorem c9_no_division_by_zero (rows : List StationResult) :
    (rows.length : ℚ) * (1/10) ≤ weight_total rows ∧
    (rows ≠ [] → 0 < weight_total rows ∧
      weighted_prediction rows = weighted_sum rows / weight_total rows) ∧
    weighted_prediction [] = 0 := by
  refine ⟨weight_total_ge rows, fun h => ⟨weight_total_pos rows h, ?_⟩, ?_⟩
  · rw [weighted_prediction, if_pos (weight_total_pos rows h)]
  · rw [weighted_prediction]
    norm_num [weight_total, weighted_sum]

/-- Witness for C9 at a concrete non-empty row list. -/
theorem c9_witness :
    ([sampleRowR5] ≠ ([] : List StationResult)) ∧ 0 < weight_total [sampleRowR5] := by
  have h := (c9_no_division_by_zero [sampleRowR5]).2.1 (by simp)
  exact ⟨by simp, h.1⟩

/-- C10: the alert-level lookup is total (always one of the configured
levels) and every negative value falls through to the first band, LOW. -/
theorem c10_negative_level_low :
    (∀ v : ℚ, get_alert_level v ∈ ALERT_LEVELS) ∧
    (∀ v : ℚ, v < 0 →
      get_alert_level v = ALERT_LEVELS.getD 0 default ∧ (get_alert_level v).name = "LOW") := by
  constructor
  · intro v
    rw [get_alert_level]
    rcases hf : ALERT_LEVELS.reverse.find? (fun lvl => decide (lvl.min ≤ v)) with _ | lvl
    · rw [hf]
      simp [ALERT_LEVELS]
    · rw [hf]
      have := List.mem_reverse.mp (List.mem_of_find?_eq_some hf)
      simpa using this
  · intro v hv
    have hnone : ALERT_LEVELS.reverse.find? (fun lvl => decide (lvl.min ≤ v)) = none := by
      rw [List.find?_eq_none]
      intro lvl hlvl
      simp only [decide_eq_true_eq]
      intro hle
      have h0 : (0 : ℚ) ≤ lvl.min := by
        fin_cases hlvl <;> norm_num
      linarith
    rw [get_alert_level, hnone]
    exact ⟨rfl, rfl⟩

/-- Witness for C10 at `v = -1`. -/
theorem c10_witness :
    ((-1 : ℚ) < 0) ∧ (get_alert_level (-1) = ALERT_LEVELS.getD 0 default ∧
      (get_alert_level (-1)).name = "LOW") :=
  ⟨by norm_num, c10_negative_level_low.2 (-1) (by norm_num)⟩

/-- Index (0 = LOW … 4 = EXTREME) of the level returned by
`get_alert_level` within the `ALERT_LEVELS` table. -/
def levelIndex (v : ℚ) : ℕ := ALERT_LEVELS.indexOf (get_alert_level v)

theorem get_alert_level_eq (v : ℚ) :
    get_alert_level v =
      if 120 ≤ v then ALERT_LEVELS.getD 4 default
      else if 80 ≤ v then ALERT_LEVELS.getD 3 default
      else if 60 ≤ v then ALERT_LEVELS.getD 2 default
      else if 20 ≤ v then ALERT_LEVELS.getD 1 default
      else ALERT_LEVELS.getD 0 default := by
  have hrev : ALERT_LEVELS.reverse = [ALERT_LEVELS.getD 4 default, ALERT_LEVELS.getD 3 default,
    ALERT_LEVELS.getD 2 default, ALERT_LEVELS.getD 1 default, ALERT_LEVELS.getD 0 default] := rfl
  rw [get_alert_level, hrev]
  by_cases h4 : 120 ≤ v
  · rw [List.find?_cons_of_pos _ (by simpa [ALERT_LEVELS] using h4)]
    simp [h4]
  · rw [List.find?_cons_of_neg _ (by simpa [ALERT_LEVELS] using h4)]
    by_cases h3 : 80 ≤ v
    · rw [List.find?_cons_of_pos _ (by simpa [ALERT_LEVELS] using h3)]
      simp [h4, h3]
    · rw [List.find?_cons_of_neg _ (by simpa [ALERT_LEVELS] using h3)]
      by_cases h2 : 60 ≤ v
      · rw [List.find?_cons_of_pos _ (by simpa [ALERT_LEVELS] using h2)]
        simp [h4, h3, h2]
      · rw [List.find?_cons_of_neg _ (by simpa [ALERT_LEVELS] using h2)]
        by_cases h1 : 20 ≤ v
        · rw [List.find?_cons_of_pos _ (by simpa [ALERT_LEVELS] using h1)]
          simp [h4, h3, h2, h1]
        · rw [List.find?_cons_of_neg _ (by simpa [ALERT_LEVELS] using h1)]
          by_cases h0 : 0 ≤ v
          · rw [List.find?_cons_of_pos _ (by simpa [ALERT_LEVELS] using h0)]
            simp [h4, h3, h2, h1]
          · rw [List.find?_cons_of_neg _ (by simpa [ALERT_LEVELS] using h0)]
            simp [h4, h3, h2, h1]

theorem levelIndex_eq (v : ℚ) :
    levelIndex v = if 120 ≤ v then 4 else if 80 ≤ v then 3 else if 60 ≤ v then 2
      else if 20 ≤ v then 1 else 0 := by
  rw [levelIndex, get_alert_level_eq]
  split_ifs <;> rfl

/-- C8: the alert-level lookup is monotone in the value, and whenever some
band's minimum bound is `≤ v` the level returned for `v` is the highest
such band (it is at least as high as every band whose minimum is `≤ v`,
and its own minimum is `≤ v`). -/
theorem c8_alert_level_monotone :
    (∀ v1 v2 : ℚ, v1 < v2 → levelIndex v1 ≤ levelIndex v2) ∧
    (∀ v : ℚ, ∀ i, i < ALERT_LEVELS.length → (ALERT_LEVELS.getD i default).min ≤ v →
      i ≤ levelIndex v ∧ (ALERT_LEVELS.getD (levelIndex v) default).min ≤ v) := by
  constructor
  · intro v1 v2 h
    rw [levelIndex_eq, levelIndex_eq]
    split_ifs <;> first | omega | linarith
  · intro v i hi hmin
    simp only [ALERT_LEVELS, List.length_cons, List.length_nil] at hi
    rw [levelIndex_eq]
    interval_cases i <;>
      simp only [ALERT_LEVELS, List.getD_cons_zero, List.getD_cons_succ] at hmin ⊢ <;>
      split_ifs <;>
      constructor <;>
      first | omega | linarith | assumption

/-- Witness for C8: monotonicity at `(5, 25)` and the highest-band property
at `v = 70`, `i = 2` (HIGH). -/
theorem c8_monotone_witness :
    ((5 : ℚ) < 25 ∧ levelIndex 5 ≤ levelIndex 25) ∧
    ((2 < ALERT_LEVELS.length ∧ (ALERT_LEVELS.getD 2 default).min ≤ (70 : ℚ)) ∧
      (2 ≤ levelIndex 70 ∧ (ALERT_LEVELS.getD (levelIndex 70) default).min ≤ (70 : ℚ))) := by
  refine ⟨⟨by norm_num, c8_alert_level_monotone.1 5 25 (by norm_num)⟩, ⟨?_, ?_⟩⟩
  · exact ⟨by simp [ALERT_LEVELS], by norm_num [ALERT_LEVELS]⟩
  · exact c8_alert_level_monotone.2 70 2 (by simp [ALERT_LEVELS]) (by norm_num [ALERT_LEVELS])

theorem round1_intCast (n : ℤ) : round1 ((n : ℚ)) = n := by
  simp only [round1]
  rw [show ((10:ℚ) * n) = ((10 * n : ℤ) : ℚ) by push_cast; ring, Int.floor_intCast]
  norm_num

theorem aqi_find_eq (aqi : ℤ) (h0 : 0 < aqi) :
    AQI_BREAKPOINTS.find? (fun bp => decide (bp.1 ≤ aqi ∧ aqi ≤ bp.2.1)) =
      if aqi ≤ 50 then some (0, 50, 0, 12)
      else if aqi ≤ 100 then some (51, 100, 121/10, 354/10)
      else if aqi ≤ 150 then some (101, 150, 355/10, 554/10)
      else if aqi ≤ 200 then some (151, 200, 555/10, 1504/10)
      else if aqi ≤ 300 then some (201, 300, 1505/10, 2504/10)
      else if aqi ≤ 400 then some (301, 400, 2505/10, 3504/10)
      else if aqi ≤ 500 then some (401, 500, 3505/10, 5004/10)
      else none := by
  rw [AQI_BREAKPOINTS]
  by_cases b1 : aqi ≤ 50
  · rw [List.find?_cons_of_pos _ (by simp only [decide_eq_true_eq]; exact ⟨by omega, by omega⟩)]
    simp [b1]
  · rw [List.find?_cons_of_neg _ (by simp only [decide_eq_true_eq]; omega)]
    by_cases b2 : aqi ≤ 100
    · rw [List.find?_cons_of_pos _ (by simp only [decide_eq_true_eq]; exact ⟨by omega, by omega⟩)]
      simp [b1, b2]
    · rw [List.find?_cons_of_neg _ (by simp only [decide_eq_true_eq]; omega)]
      by_cases b3 : aqi ≤ 150
      · rw [List.find?_cons_of_pos _ (by simp only [decide_eq_true_eq]; exact ⟨by omega, by omega⟩)]
        simp [b1, b2, b3]
      · rw [List.find?_cons_of_neg _ (by simp only [decide_eq_true_eq]; omega)]
        by_cases b4 : aqi ≤ 200
        · rw [List.find?_cons_of_pos _
            (by simp only [decide_eq_true_eq]; exact ⟨by omega, by omega⟩)]
          simp [b1, b2, b3, b4]
        · rw [List.find?_cons_of_neg _ (by simp only [decide_eq_true_eq]; omega)]
          by_cases b5 : aqi ≤ 300
          · rw [List.find?_cons_of_pos _
              (by simp only [decide_eq_true_eq]; exact ⟨by omega, by omega⟩)]
            simp [b1, b2, b3, b4, b5]
          · rw [List.find?_cons_of_neg _ (by simp only [decide_eq_true_eq]; omega)]
            by_cases b6 : aqi ≤ 400
            · rw [List.find?_cons_of_pos _
                (by simp only [decide_eq_true_eq]; exact ⟨by omega, by omega⟩)]
              simp [b1, b2, b3, b4, b5, b6]
            · rw [List.find?_cons_of_neg _ (by simp only [decide_eq_true_eq]; omega)]
              by_cases b7 : aqi ≤ 500
              · rw [List.find?_cons_of_pos _
                  (by simp only [decide_eq_true_eq]; exact ⟨by omega, by omega⟩)]
                simp [b1, b2, b3, b4, b5, b6, b7]
              · rw [List.find?_cons_of_neg _ (by simp only [decide_eq_true_eq]; omega)]
                simp [b1, b2, b3, b4, b5, b6, b7]

/-- C5: the AQI → µg/m³ conversion returns `0` for `aqi ≤ 0`; inside each
of the seven EPA breakpoint rows it returns the linear interpolation
`((aqi - aqiLo) * (cHi - cLo)) / (aqiHi - aqiLo) + cLo` rounded to one
decimal; above 500 it returns the AQI value itself; and in particular
`50 ↦ 12.0`, `51 ↦ 12.1`, `0 ↦ 0.0`. -/
theorem c5_aqi_conversion (aqi : ℤ) :
    (aqi ≤ 0 → aqi_to_ugm3 aqi = 0) ∧
    (∀ bp ∈ AQI_BREAKPOINTS, bp.1 ≤ aqi → aqi ≤ bp.2.1 →
      aqi_to_ugm3 aqi =
        round1 (((aqi : ℚ) - bp.1) * (bp.2.2.2 - bp.2.2.1) / ((bp.2.1 : ℚ) - bp.1) + bp.2.2.1)) ∧
    (500 < aqi → aqi_to_ugm3 aqi = aqi) ∧
    aqi_to_ugm3 50 = 12 ∧ aqi_to_ugm3 51 = 121/10 ∧ aqi_to_ugm3 0 = 0 := by
  refine ⟨fun h => by simp [aqi_to_ugm3, h], fun bp hbp hlo hhi => ?_, fun h => ?_, ?_, ?_, ?_⟩
  · fin_cases hbp <;> simp only at hlo hhi
    · by_cases hz : aqi ≤ 0
      · have haqi : aqi = 0 := by omega
        subst haqi
        simp only [aqi_to_ugm3, if_pos (by omega : (0:ℤ) ≤ 0)]
        norm_num [round1]
      · simp only [aqi_to_ugm3, if_neg hz]
        rw [aqi_find_eq aqi (by omega)]
        split_ifs <;> first | rfl | (exfalso; omega)
    all_goals
      simp only [aqi_to_ugm3, if_neg (show ¬ aqi ≤ 0 by omega)]
    all_goals
      rw [aqi_find_eq aqi (by omega)]
    all_goals
      split_ifs <;> first | rfl | (exfalso; omega)
  · simp only [aqi_to_ugm3, if_neg (show ¬ aqi ≤ 0 by omega)]
    rw [aqi_find_eq aqi (by omega)]
    split_ifs <;> first | (exfalso; omega) | (rw [mul_one, round1_intCast])
  · simp only [aqi_to_ugm3, if_neg (show ¬ (50:ℤ) ≤ 0 by norm_num)]
    rw [aqi_find_eq 50 (by norm_num)]
    norm_num [round1]
  · simp only [aqi_to_ugm3, if_neg (show ¬ (51:ℤ) ≤ 0 by norm_num)]
    rw [aqi_find_eq 51 (by norm_num)]
    norm_num [round1]
  · norm_num [aqi_to_ugm3]

theorem match_fold_stay {α : Type} (d : α → ℝ) (pm : α → ℚ) (l : List α) :
    ∀ (b : ℝ) (p : Option ℚ), (∀ x ∈ l, b ≤ d x) →
      l.foldl (fun acc x => if d x < acc.1 then (d x, some (pm x)) else acc) (b, p) = (b, p) := by
  induction l with
  | nil => intro b p _; rfl
  | cons z t ih =>
    intro b p h
    have hz : ¬ d z < b := not_lt.mpr (h z (List.mem_cons_self z t))
    simp only [List.foldl_cons, if_neg hz]
    exact ih b p (fun x hx => h x (List.mem_cons_of_mem z hx))

theorem match_fold_min {α : Type} (d : α → ℝ) (pm : α → ℚ) (l : List α) :
    ∀ (b : ℝ) (p : Option ℚ), (∃ x ∈ l, d x < b) →
      ∃ x ∈ l, d x < b ∧ (∀ y ∈ l, d x ≤ d y) ∧
        (l.foldl (fun acc x => if d x < acc.1 then (d x, some (pm x)) else acc) (b, p)).2 =
          some (pm x) := by
  induction l with
  | nil =>
    rintro b p ⟨x, hx, -⟩
    exact absurd hx (List.not_mem_nil x)
  | cons z t ih =>
    rintro b p ⟨x, hx, hxb⟩
    by_cases hz : d z < b
    · simp only [List.foldl_cons, if_pos hz]
      by_cases ht : ∃ y ∈ t, d y < d z
      · obtain ⟨w, hw, hwz, hwmin, hres⟩ := ih (d z) (some (pm z)) ht
        refine ⟨w, List.mem_cons_of_mem z hw, lt_trans hwz hz, ?_, hres⟩
        intro y hy
        rcases List.mem_cons.mp hy with rfl | hy2
        · exact le_of_lt hwz
        · exact hwmin y hy2
      · push_neg at ht
        refine ⟨z, List.mem_cons_self z t, hz, ?_, ?_⟩
        · intro y hy
          rcases List.mem_cons.mp hy with rfl | hy2
          · exact le_refl _
          · exact ht y hy2
        · rw [match_fold_stay d pm t (d z) (some (pm z)) ht]
    · simp only [List.foldl_cons, if_neg hz]
      have hx2 : x ∈ t := by
        rcases List.mem_cons.mp hx with rfl | h2
        · exact absurd hxb hz
        · exact h2
      obtain ⟨w, hw, hwb, hwmin, hres⟩ := ih b p ⟨x, hx2, hxb⟩
      refine ⟨w, List.mem_cons_of_mem z hw, hwb, ?_, hres⟩
      intro y hy
      rcases List.mem_cons.mp hy with rfl | hy2
      · exact le_trans (le_of_lt hwb) (not_lt.mp hz)
      · exact hwmin y hy2

theorem haversine_zero : haversine 0 0 0 0 = 0 := by
  have hr : radians 0 = 0 := by simp [radians]
  have ha : hav_a 0 0 0 0 = 0 := by
    simp [hav_a, hr]
  simp only [haversine, ha, sub_zero, Real.sqrt_zero, Real.sqrt_one]
  norm_num [atan2, Real.arctan_zero]

attribute [irreducible] haversine

/-- C6: the station matcher returns no reading when every observation is at
haversine distance ≥ 30 km (so a 30 km observation never matches), and
otherwise returns the `pm25` of an observation at distance < 30 km that
minimizes the haversine distance over the whole observation list. -/
theorem c6_nearest_match (slat slon : ℝ) (obs : List Obs) :
    ((∀ ws ∈ obs, 30 ≤ haversine slat slon ws.lat ws.lon) →
      match_station slat slon obs = none) ∧
    ((∃ ws ∈ obs, haversine slat slon ws.lat ws.lon < 30) →
      ∃ ws ∈ obs, haversine slat slon ws.lat ws.lon < 30 ∧
        (∀ ws2 ∈ obs, haversine slat slon ws.lat ws.lon ≤ haversine slat slon ws2.lat ws2.lon) ∧
        match_station slat slon obs = some ws.pm25) := by
  constructor
  · intro h
    have e := match_fold_stay (fun ws => haversine slat slon ws.lat ws.lon)
      (fun ws => ws.pm25) obs 30 none h
    rw [match_station, e]
  · intro h
    obtain ⟨w, hw, hwb, hwmin, hres⟩ :=
      match_fold_min (fun ws => haversine slat slon ws.lat ws.lon) (fun ws => ws.pm25)
        obs 30 none h
    refine ⟨w, hw, hwb, hwmin, ?_⟩
    rw [match_station]
    exact hres

/-- A concrete observation at the station's exact location, for the C6 witness. -/
def c6_obs : Obs := { lat := 0, lon := 0, pm25 := 7 }

/-- Witness for C6: an empty observation list yields no match, and a single
observation at distance 0 yields its reading. -/
theorem c6_match_witness :
    ((∀ ws ∈ ([] : List Obs), 30 ≤ haversine 0 0 ws.lat ws.lon) ∧
      match_station 0 0 [] = none) ∧
    ((∃ ws ∈ [c6_obs], haversine 0 0 ws.lat ws.lon < 30) ∧
      ∃ ws ∈ [c6_obs], haversine 0 0 ws.lat ws.lon < 30 ∧
        (∀ ws2 ∈ [c6_obs], haversine 0 0 ws.lat ws.lon ≤ haversine 0 0 ws2.lat ws2.lon) ∧
        match_station 0 0 [c6_obs] = some ws.pm25) := by
  have hnil : ∀ ws ∈ ([] : List Obs), 30 ≤ haversine 0 0 ws.lat ws.lon :=
    fun ws h => absurd h (List.not_mem_nil ws)
  have hobs : ∃ ws ∈ [c6_obs], haversine 0 0 ws.lat ws.lon < 30 := by
    refine ⟨c6_obs, List.mem_singleton.mpr rfl, ?_⟩
    rw [show c6_obs.lat = 0 from rfl, show c6_obs.lon = 0 from rfl, haversine_zero]
    norm_num
  exact ⟨⟨hnil, (c6_nearest_match 0 0 []).1 hnil⟩,
    hobs, (c6_nearest_match 0 0 [c6_obs]).2 hobs⟩

/-- Witness for C5 at `aqi = -3` (non-positive), `aqi = 250` (inside the
201–300 row, giving 199.9), and `aqi = 501` (above the table). -/
theorem c5_aqi_witness :
    ((-3 : ℤ) ≤ 0 ∧ aqi_to_ugm3 (-3) = 0) ∧
    (aqi_to_ugm3 250 = 1999/10) ∧
    (500 < (501:ℤ) ∧ aqi_to_ugm3 501 = 501) := by
  refine ⟨⟨by norm_num, (c5_aqi_conversion (-3)).1 (by norm_num)⟩, ?_,
    by norm_num, (c5_aqi_conversion 501).2.2.1 (by norm_num)⟩
  have h := (c5_aqi_conversion 250).2.1 (201, 300, 1505/10, 2504/10)
    (by simp [AQI_BREAKPOINTS]) (by norm_num) (by norm_num)
  rw [h]
  norm_num [round1]

theorem filter_head?_eq_find? {α : Type} (p : α → Bool) (l : List α) :
    (l.filter p).head? = l.find? p := by
  induction l with
  | nil => rfl
  | cons z t ih =>
    by_cases hz : p z
    · simp [List.filter_cons, List.find?_cons, hz]
    · simp only [List.filter_cons, List.find?_cons, Bool.not_eq_true] at *
      simp [hz, ih]

theorem find?_filter_isSome_iff {α : Type} (p q : α → Bool) (l : List α) :
    ((l.filter q).find? p).isSome ↔ ∃ x ∈ l, q x ∧ p x := by
  rw [List.find?_isSome]
  constructor
  · rintro ⟨x, hx, hpx⟩
    obtain ⟨hxl, hqx⟩ := List.mem_filter.mp hx
    exact ⟨x, hxl, hqx, hpx⟩
  · rintro ⟨x, hxl, hqx, hpx⟩
    exact ⟨x, List.mem_filter.mpr ⟨hxl, hqx⟩, hpx⟩

/-- C4: the rule engine yields exactly one decision per city by evaluating
the rules in priority order 1 → 2 → 3; in particular whenever both the
rule-1 condition (a tier-1 station within 600 km reading ≥ 40) and the
rule-3 condition (a tier ≥ 2 station within 400 km reading ≥ 40) hold, the
decision's rule is `rule1`. -/
theorem c4_rule1_priority (prev : List (String × ℚ)) (rows : List StationResult)
    (h1 : ∃ r ∈ rows, r.tier = 1 ∧ r.dist ≤ 600 ∧ RULE1_TRIGGER ≤ r.pm25)
    (h3 : ∃ r ∈ rows, 2 ≤ r.tier ∧ r.dist ≤ 400 ∧ RULE3_CORRIDOR_TRIGGER ≤ r.pm25) :
    ∃ trigs, ruleDecision prev rows = some ("rule1", trigs) := by
  have hsome : ((rows.filter (fun r => decide (r.tier = 1 ∧ r.dist ≤ 600))).find?
      (fun r => decide (r.pm25 ≥ RULE1_TRIGGER))).isSome := by
    rw [find?_filter_isSome_iff]
    obtain ⟨r, hr, ht, hd, hp⟩ := h1
    exact ⟨r, hr, by simp [ht, hd], by simpa using hp⟩
  obtain ⟨r0, hr0⟩ := Option.isSome_iff_exists.mp hsome
  refine ⟨[r0.station], ?_⟩
  simp only [ruleDecision, hr0]

theorem filter_ne_nil_iff {α : Type} (p : α → Bool) (l : List α) :
    l.filter p ≠ [] ↔ ∃ x ∈ l, p x := by
  rw [ne_eq, List.filter_eq_nil_iff]
  push_neg
  simp

theorem ruleDecision_rule2_inv (prev : List (String × ℚ)) (rows : List StationResult)
    (t : List String) (h : ruleDecision prev rows = some ("rule2", t)) :
    (rows.filter (fun r => decide (r.tier = 1 ∧ r.dist ≤ 600))).find?
        (fun r => decide (r.pm25 ≥ RULE1_TRIGGER)) = none ∧
    prev ≠ [] ∧
    ∃ d dt i it,
      ((rows.filter (fun r => decide (r.dist > 600))).filter
          (fun r => decide (r.pm25 ≥ RULE2_DISTANT_TRIGGER))) = d :: dt ∧
      rows.filter (fun r => decide (200 ≤ r.dist ∧ r.dist ≤ 600 ∧ r.pm25 ≥ RULE2_INTERMEDIATE ∧
        (prev.lookup r.id).getD 0 ≥ RULE2_INTERMEDIATE)) = i :: it ∧
      t = [d.station, i.station] := by
  rcases hR1 : (rows.filter (fun r => decide (r.tier = 1 ∧ r.dist ≤ 600))).find?
      (fun r => decide (r.pm25 ≥ RULE1_TRIGGER)) with _ | r1
  case some =>
    simp only [ruleDecision, hR1] at h
    simp at h
  case none =>
  simp only [ruleDecision, hR1] at h
  by_cases hprev : prev.isEmpty
  · rw [if_neg (by simp [hprev])] at h
    rcases hc : (rows.filter (fun r => decide (r.tier ≥ 2 ∧ r.dist ≤ 400))).find?
        (fun r => decide (r.pm25 ≥ RULE3_CORRIDOR_TRIGGER)) with _ | r3 <;>
      rw [hc] at h <;> simp at h
  · rw [if_pos hprev] at h
    rcases hDT : (rows.filter (fun r => decide (r.dist > 600))).filter
        (fun r => decide (r.pm25 ≥ RULE2_DISTANT_TRIGGER)) with _ | ⟨d, dt⟩ <;>
      rcases hIC : rows.filter (fun r => decide (200 ≤ r.dist ∧ r.dist ≤ 600 ∧
          r.pm25 ≥ RULE2_INTERMEDIATE ∧ (prev.lookup r.id).getD 0 ≥ RULE2_INTERMEDIATE))
        with _ | ⟨i, it⟩ <;>
      rw [hDT, hIC] at h
    · rcases hc : (rows.filter (fun r => decide (r.tier ≥ 2 ∧ r.dist ≤ 400))).find?
          (fun r => decide (r.pm25 ≥ RULE3_CORRIDOR_TRIGGER)) with _ | r3 <;>
        rw [hc] at h <;> simp at h
    · rcases hc : (rows.filter (fun r => decide (r.tier ≥ 2 ∧ r.dist ≤ 400))).find?
          (fun r => decide (r.pm25 ≥ RULE3_CORRIDOR_TRIGGER)) with _ | r3 <;>
        rw [hc] at h <;> simp at h
    · rcases hc : (rows.filter (fun r => decide (r.tier ≥ 2 ∧ r.dist ≤ 400))).find?
          (fun r => decide (r.pm25 ≥ RULE3_CORRIDOR_TRIGGER)) with _ | r3 <;>
        rw [hc] at h <;> simp at h
    · simp only [Option.some.injEq, Prod.mk.injEq] at h
      refine ⟨hR1, fun hp => hprev (by simp [hp]), d, dt, i, it, hDT, hIC, ?_⟩
      exact h.2.symm

theorem ruleDecision_rule2_fire (prev : List (String × ℚ)) (rows : List StationResult)
    (d i : StationResult) (dt it : List StationResult)
    (hR1 : (rows.filter (fun r => decide (r.tier = 1 ∧ r.dist ≤ 600))).find?
      (fun r => decide (r.pm25 ≥ RULE1_TRIGGER)) = none)
    (hprev : prev ≠ [])
    (hDT : ((rows.filter (fun r => decide (r.dist > 600))).filter
      (fun r => decide (r.pm25 ≥ RULE2_DISTANT_TRIGGER))) = d :: dt)
    (hIC : rows.filter (fun r => decide (200 ≤ r.dist ∧ r.dist ≤ 600 ∧
      r.pm25 ≥ RULE2_INTERMEDIATE ∧ (prev.lookup r.id).getD 0 ≥ RULE2_INTERMEDIATE)) = i :: it) :
    ruleDecision prev rows = some ("rule2", [d.station, i.station]) := by
  simp only [ruleDecision, hR1]
  rw [if_pos (fun he => hprev (List.isEmpty_iff.mp he)), hDT, hIC]

/-- C3: for a city, rule 2 fires exactly when rule 1 did not fire, the
previous-hour reading map is non-empty, some station beyond 600 km reads
≥ 35 µg/m³, and some station at 200–600 km reads ≥ 20 µg/m³ both now and
in the previous hour; the trigger list is then exactly the first qualifying
distant station followed by the first qualifying intermediate station. -/
theorem c3_rule2_iff (prev : List (String × ℚ)) (rows : List StationResult) :
    ((∃ t, ruleDecision prev rows = some ("rule2", t)) ↔
      ((¬ ∃ r ∈ rows, r.tier = 1 ∧ r.dist ≤ 600 ∧ r.pm25 ≥ RULE1_TRIGGER) ∧
        prev ≠ [] ∧
        (∃ r ∈ rows, r.dist > 600 ∧ r.pm25 ≥ RULE2_DISTANT_TRIGGER) ∧
        (∃ r ∈ rows, 200 ≤ r.dist ∧ r.dist ≤ 600 ∧ r.pm25 ≥ RULE2_INTERMEDIATE ∧
          (prev.lookup r.id).getD 0 ≥ RULE2_INTERMEDIATE))) ∧
    (∀ t, ruleDecision prev rows = some ("rule2", t) →
      ∃ d i,
        ((rows.filter (fun r => decide (r.dist > 600))).find?
          (fun r => decide (r.pm25 ≥ RULE2_DISTANT_TRIGGER))) = some d ∧
        rows.find? (fun r => decide (200 ≤ r.dist ∧ r.dist ≤ 600 ∧ r.pm25 ≥ RULE2_INTERMEDIATE ∧
          (prev.lookup r.id).getD 0 ≥ RULE2_INTERMEDIATE)) = some i ∧
        t = [d.station, i.station]) := by
  constructor
  · constructor
    · rintro ⟨t, ht⟩
      obtain ⟨hR1, hprev, d, dt, i, it, hDT, hIC, hteq⟩ := ruleDecision_rule2_inv prev rows t ht
      refine ⟨?_, hprev, ?_, ?_⟩
      · rintro ⟨r, hr, h1, h2, h3⟩
        rw [List.find?_eq_none] at hR1
        have hcon := hR1 r (List.mem_filter.mpr ⟨hr, by simp [h1, h2]⟩)
        simp only [decide_eq_true_eq] at hcon
        exact hcon h3
      · have hd : d ∈ (rows.filter (fun r => decide (r.dist > 600))).filter
            (fun r => decide (r.pm25 ≥ RULE2_DISTANT_TRIGGER)) := by
          rw [hDT]; exact List.mem_cons_self _ _
        obtain ⟨hd1, hd2⟩ := List.mem_filter.mp hd
        obtain ⟨hd0, hd3⟩ := List.mem_filter.mp hd1
        exact ⟨d, hd0, by simpa using hd3, by simpa using hd2⟩
      · have hi : i ∈ rows.filter (fun r => decide (200 ≤ r.dist ∧ r.dist ≤ 600 ∧
            r.pm25 ≥ RULE2_INTERMEDIATE ∧ (prev.lookup r.id).getD 0 ≥ RULE2_INTERMEDIATE)) := by
          rw [hIC]; exact List.mem_cons_self _ _
        obtain ⟨hi0, hi1⟩ := List.mem_filter.mp hi
        refine ⟨i, hi0, ?_⟩
        simpa using hi1
    · rintro ⟨hno, hprev, hdist, hint⟩
      have hR1 : (rows.filter (fun r => decide (r.tier = 1 ∧ r.dist ≤ 600))).find?
          (fun r => decide (r.pm25 ≥ RULE1_TRIGGER)) = none := by
        rw [List.find?_eq_none]
        intro x hx
        obtain ⟨hxl, hq⟩ := List.mem_filter.mp hx
        simp only [decide_eq_true_eq] at hq ⊢
        intro hp
        exact hno ⟨x, hxl, hq.1, hq.2, hp⟩
      have hDTne : ((rows.filter (fun r => decide (r.dist > 600))).filter
          (fun r => decide (r.pm25 ≥ RULE2_DISTANT_TRIGGER))) ≠ [] := by
        rw [filter_ne_nil_iff]
        obtain ⟨r, hr, h1, h2⟩ := hdist
        exact ⟨r, List.mem_filter.mpr ⟨hr, by simpa using h1⟩, by simpa using h2⟩
      have hICne : rows.filter (fun r => decide (200 ≤ r.dist ∧ r.dist ≤ 600 ∧
          r.pm25 ≥ RULE2_INTERMEDIATE ∧ (prev.lookup r.id).getD 0 ≥ RULE2_INTERMEDIATE)) ≠ [] := by
        rw [filter_ne_nil_iff]
        obtain ⟨r, hr, h1, h2, h3, h4⟩ := hint
        exact ⟨r, hr, by simp [h1, h2, h3, h4]⟩
      obtain ⟨d, dt, hDT⟩ := List.exists_cons_of_ne_nil hDTne
      obtain ⟨i, it, hIC⟩ := List.exists_cons_of_ne_nil hICne
      exact ⟨[d.station, i.station],
        ruleDecision_rule2_fire prev rows d i dt it hR1 hprev hDT hIC⟩
  · intro t ht
    obtain ⟨hR1, hprev, d, dt, i, it, hDT, hIC, hteq⟩ := ruleDecision_rule2_inv prev rows t ht
    refine ⟨d, i, ?_, ?_, hteq⟩
    · have hh : ((rows.filter (fun r => decide (r.dist > 600))).filter
          (fun r => decide (r.pm25 ≥ RULE2_DISTANT_TRIGGER))).head? = some d := by
        rw [hDT]; rfl
      rwa [filter_head?_eq_find?] at hh
    · have hh : (rows.filter (fun r => decide (200 ≤ r.dist ∧ r.dist ≤ 600 ∧
          r.pm25 ≥ RULE2_INTERMEDIATE ∧
          (prev.lookup r.id).getD 0 ≥ RULE2_INTERMEDIATE))).head? = some i := by
        rw [hIC]; rfl
      rwa [filter_head?_eq_find?] at hh

theorem lookup_isSome_iff_mem_keys {α : Type} (l : List (String × α)) (c : String) :
    (l.lookup c).isSome ↔ c ∈ l.map Prod.fst := by
  induction l with
  | nil => simp
  | cons p t ih =>
    rcases p with ⟨k, v⟩
    by_cases hk : c = k
    · subst hk
      simp [List.lookup_cons]
    · have hbeq : (c == k) = false := beq_eq_false_iff_ne.mpr hk
      simp [List.lookup_cons, hbeq, ih, hk]

theorem lookup_map_value {α β : Type} (f : α → β) (l : List (String × α)) (c : String) (b : α)
    (hnd : (l.map Prod.fst).Nodup) (hmem : (c, b) ∈ l) :
    ((l.map (fun p => (p.1, f p.2))).lookup c) = some (f b) := by
  induction l with
  | nil => simp at hmem
  | cons p t ih =>
    rcases p with ⟨k, v⟩
    rcases List.mem_cons.mp hmem with heq | hmem2
    · cases heq
      simp [List.lookup_cons]
    · have hck : c ≠ k := by
        intro hc
        subst hc
        have hmemk : c ∈ t.map Prod.fst := List.mem_map_of_mem Prod.fst hmem2
        exact (List.nodup_cons.mp (by simpa using hnd)).1 hmemk
      have hbeq : (c == k) = false := beq_eq_false_iff_ne.mpr hck
      simp only [List.map_cons, List.lookup_cons, hbeq]
      exact ih (List.nodup_cons.mp (by simpa using hnd)).2 hmem2

theorem groupInsert_keys (acc : List (String × List StationResult)) (r : StationResult) :
    (groupInsert acc r).map Prod.fst =
      if r.target_city ∈ acc.map Prod.fst then acc.map Prod.fst
      else acc.map Prod.fst ++ [r.target_city] := by
  rw [groupInsert]
  by_cases h : acc.any (fun p => p.1 == r.target_city)
  · have hmem : r.target_city ∈ acc.map Prod.fst := by
      rw [List.any_eq_true] at h
      obtain ⟨p, hp, hb⟩ := h
      have hpe : p.1 = r.target_city := by simpa using hb
      rw [← hpe]
      exact List.mem_map_of_mem Prod.fst hp
    rw [if_pos h, if_pos hmem, List.map_map]
    apply List.map_congr_left
    intro p _
    simp only [Function.comp_apply]
    split <;> rfl
  · have hmem : r.target_city ∉ acc.map Prod.fst := by
      intro hc
      apply h
      obtain ⟨p, hp, he⟩ := List.mem_map.mp hc
      exact List.any_eq_true.mpr ⟨p, hp, by simp [he]⟩
    rw [if_neg h, if_neg hmem]
    simp

theorem groupByCity_fold_keys (l : List StationResult) :
    ∀ acc : List (String × List StationResult), (acc.map Prod.fst).Nodup →
      ((l.foldl groupInsert acc).map Prod.fst).Nodup ∧
      (∀ c, c ∈ (l.foldl groupInsert acc).map Prod.fst ↔
        c ∈ acc.map Prod.fst ∨ ∃ r ∈ l, r.target_city = c) := by
  induction l with
  | nil =>
    intro acc h
    refine ⟨h, fun c => ?_⟩
    simp
  | cons z t ih =>
    intro acc h
    simp only [List.foldl_cons]
    have hkeys := groupInsert_keys acc z
    by_cases hz : z.target_city ∈ acc.map Prod.fst
    · rw [if_pos hz] at hkeys
      obtain ⟨h1, h2⟩ := ih (groupInsert acc z) (by rw [hkeys]; exact h)
      refine ⟨h1, fun c => ?_⟩
      rw [h2 c, hkeys]
      constructor
      · rintro (hc | ⟨r, hr, hrc⟩)
        · exact Or.inl hc
        · exact Or.inr ⟨r, List.mem_cons_of_mem z hr, hrc⟩
      · rintro (hc | ⟨r, hr, hrc⟩)
        · exact Or.inl hc
        · rcases List.mem_cons.mp hr with rfl | hr2
          · exact Or.inl (hrc ▸ hz)
          · exact Or.inr ⟨r, hr2, hrc⟩
    · rw [if_neg hz] at hkeys
      have hnd2 : ((groupInsert acc z).map Prod.fst).Nodup := by
        rw [hkeys]
        simp only [List.nodup_append, List.nodup_cons, List.nodup_nil]
        exact ⟨h, by simp, by simpa using hz⟩
      obtain ⟨h1, h2⟩ := ih (groupInsert acc z) hnd2
      refine ⟨h1, fun c => ?_⟩
      rw [h2 c, hkeys]
      constructor
      · rintro (hc | ⟨r, hr, hrc⟩)
        · rcases List.mem_append.mp hc with hc1 | hc2
          · exact Or.inl hc1
          · have : c = z.target_city := by simpa using hc2
            exact Or.inr ⟨z, List.mem_cons_self z t, this.symm⟩
        · exact Or.inr ⟨r, List.mem_cons_of_mem z hr, hrc⟩
      · rintro (hc | ⟨r, hr, hrc⟩)
        · exact Or.inl (List.mem_append.mpr (Or.inl hc))
        · rcases List.mem_cons.mp hr with rfl | hr2
          · exact Or.inl (List.mem_append.mpr (Or.inr (by simp [hrc])))
          · exact Or.inr ⟨r, hr2, hrc⟩

theorem predictRow_some_inv (readings : List (String × ℚ)) (st : Station) (r : StationResult)
    (h : predictRow readings st = some r) :
    r.target_city = st.target_city ∧ (readings.lookup st.id).isSome := by
  rcases hl : readings.lookup st.id with _ | pm
  · simp only [predictRow, hl] at h
    simp at h
  · simp only [predictRow, hl, Option.some.injEq] at h
    subst h
    simp

theorem predictRow_of_isSome (readings : List (String × ℚ)) (st : Station)
    (h : (readings.lookup st.id).isSome) :
    ∃ r, predictRow readings st = some r ∧ r.target_city = st.target_city := by
  rcases hp : predictRow readings st with _ | r
  · exfalso
    obtain ⟨pm, hpm⟩ := Option.isSome_iff_exists.mp h
    simp [predictRow, hpm] at hp
  · exact ⟨r, rfl, (predictRow_some_inv readings st r hp).1⟩

theorem mem_stationResults_iff (stations : List Station) (readings : List (String × ℚ))
    (r : StationResult) :
    r ∈ stationResults stations readings ↔
      ∃ st ∈ stations, predictRow readings st = some r := by
  rw [stationResults, List.mem_mergeSort, List.mem_filterMap]

/-- A concrete input station targeting city `"Toronto"`, used for C1. -/
def torontoStation : Station :=
  { id := "s1", city_name := "North Bay", distance := 300, direction := "NW", tier := 1,
    R := 1/2, slope := 1, intercept := 0, target_city := "Toronto" }

/-- Counterexample to C1 as stated: `"Toronto"` appears as a target city in
the input station list, but with no current reading for any of its stations
the returned `city_alerts` has no entry for it at all — not a default
`0`/LOW entry. -/
theorem c1_counterexample :
    (∃ st ∈ [torontoStation], st.target_city = "Toronto") ∧
    (evaluate [torontoStation] [] []).city_alerts.lookup "Toronto" = none := by
  constructor
  · exact ⟨torontoStation, by simp, rfl⟩
  · simp [evaluate, stationResults, predictRow, groupByCity]

/-- C1 (amended): the result of `evaluate` contains exactly one city-alert
entry (keys are distinct) for every target city that appears among the
input stations having a current reading; a city none of whose stations has
a current reading is absent from the result. -/
theorem c1_city_entries (stations : List Station) (readings prev : List (String × ℚ)) :
    (((evaluate stations readings prev).city_alerts.map Prod.fst).Nodup) ∧
    (∀ city : String,
      ((evaluate stations readings prev).city_alerts.lookup city).isSome ↔
        ∃ st ∈ stations, st.target_city = city ∧ (readings.lookup st.id).isSome) := by
  have hkeysmap : (evaluate stations readings prev).city_alerts.map Prod.fst =
      (groupByCity (stationResults stations readings)).map Prod.fst := by
    simp only [evaluate, List.map_map]
    apply List.map_congr_left
    intro p _
    rfl
  obtain ⟨hnd, hmem⟩ := groupByCity_fold_keys (stationResults stations readings) [] (by simp)
  constructor
  · rw [hkeysmap]
    exact hnd
  · intro city
    rw [lookup_isSome_iff_mem_keys, hkeysmap, groupByCity] at *
    rw [hmem city]
    simp only [List.map_nil, List.not_mem_nil, false_or]
    constructor
    · rintro ⟨r, hr, hrc⟩
      obtain ⟨st, hst, hpred⟩ := (mem_stationResults_iff stations readings r).mp hr
      obtain ⟨htc, hsome⟩ := predictRow_some_inv readings st r hpred
      exact ⟨st, hst, by rw [← htc, hrc], hsome⟩
    · rintro ⟨st, hst, hc, hread⟩
      obtain ⟨r, hpred, htc⟩ := predictRow_of_isSome readings st hread
      exact ⟨r, (mem_stationResults_iff stations readings r).mpr ⟨st, hst, hpred⟩,
        by rw [htc, hc]⟩

theorem get_alert_level_name_low (v : ℚ) (h : v < 20) : (get_alert_level v).name = "LOW" := by
  rw [get_alert_level_eq]
  split_ifs <;> first | rfl | linarith

/-- C2: if a rule fires for a city but the city's weighted prediction is in
the LOW band (below 20 µg/m³), the returned decision is the suppressed
default: `alert = false`, no rule, no trigger stations, level LOW, still
carrying the rounded weighted and max predictions. -/
theorem c2_low_weighted_suppression (stations : List Station)
    (readings prev : List (String × ℚ)) (city : String) (rows : List StationResult)
    (hmem : (city, rows) ∈ groupByCity (stationResults stations readings))
    (hfire : (ruleDecision prev rows).isSome)
    (hlow : weighted_prediction rows < 20) :
    (evaluate stations readings prev).city_alerts.lookup city =
      some { alert := false, rule := none, trigger_stations := [],
             predicted_pm25 := round1 (weighted_prediction rows),
             weighted_pm25 := round1 (weighted_prediction rows),
             max_pm25 := round1 (((rows.map (fun r => r.predicted)).max?).getD 0),
             level_name := "LOW", level_hex := "#22c55e", level_text_color := "black",
             health := "No significant risk. No action required." } := by
  have hname := get_alert_level_name_low (weighted_prediction rows) hlow
  have hcd : cityDecision prev rows = lowAlert (weighted_prediction rows)
      (((rows.map (fun r => r.predicted)).max?).getD 0) := by
    obtain ⟨⟨rule, trigs⟩, hr⟩ := Option.isSome_iff_exists.mp hfire
    simp only [cityDecision, hr]
    rw [if_neg (by simp [hname])]
  have hnd := (groupByCity_fold_keys (stationResults stations readings) [] (by simp)).1
  have hl := lookup_map_value (cityDecision prev)
    (groupByCity (stationResults stations readings)) city rows hnd hmem
  show ((groupByCity (stationResults stations readings)).map
      (fun p => (p.1, cityDecision prev p.2))).lookup city = _
  rw [hl, hcd]
  rfl

/-- Input station for the C2 witness: regression `0·pm + 10`, so the city's
weighted prediction stays in the LOW band while the raw reading 45 fires rule 1. -/
def c2_station : Station :=
  { id := "s1", city_name := "North Bay", distance := 300, direction := "NW", tier := 1,
    R := 1/2, slope := 0, intercept := 10, target_city := "Toronto" }

/-- The station result row `evaluate` builds for `c2_station` with reading 45. -/
def c2_row : StationResult :=
  { station := "North Bay", id := "s1", dist := 300, dir := "NW", tier := 1, R := 1/2,
    pm25 := 45, predicted := 10, level_name := "LOW", level_hex := "#22c55e",
    level_text_color := "black", health := "No significant risk. No action required.",
    lead := "8-24 hrs", target_city := "Toronto" }

theorem c2_predictRow : predictRow [("s1", 45)] c2_station = some c2_row := by
  have hlk : List.lookup c2_station.id [("s1", (45:ℚ))] = some 45 := rfl
  have h10 : c2_station.slope * 45 + c2_station.intercept = 10 := by norm_num [c2_station]
  have hlow : get_alert_level (c2_station.slope * 45 + c2_station.intercept) =
      ALERT_LEVELS.getD 0 default := by
    rw [h10, get_alert_level_eq]
    norm_num
  have hr : round1 (c2_station.slope * 45 + c2_station.intercept) = 10 := by
    rw [h10]
    norm_num [round1]
  have hlead : lead_time_str c2_station.tier c2_station.distance = "8-24 hrs" := by
    norm_num [lead_time_str, c2_station]
  simp only [predictRow, hlk, hlow, hr, hlead]
  rfl

theorem c2_stationResults : stationResults [c2_station] [("s1", 45)] = [c2_row] := by
  have hfm : List.filterMap (predictRow [("s1", (45:ℚ))]) [c2_station] = [c2_row] := by
    simp [List.filterMap_cons, c2_predictRow]
  rw [stationResults, hfm, List.mergeSort_singleton]

theorem c2_group : groupByCity [c2_row] = [("Toronto", [c2_row])] := rfl

theorem c2_fire : (ruleDecision [] [c2_row]).isSome := by
  have hs : (([c2_row].filter (fun r => decide (r.tier = 1 ∧ r.dist ≤ 600))).find?
      (fun r => decide (r.pm25 ≥ RULE1_TRIGGER))).isSome := by
    rw [find?_filter_isSome_iff]
    refine ⟨c2_row, by simp, ?_, ?_⟩
    · simp only [c2_row, decide_eq_true_eq]
      norm_num
    · simp only [c2_row, RULE1_TRIGGER, decide_eq_true_eq]
      norm_num
  obtain ⟨r0, hr0⟩ := Option.isSome_iff_exists.mp hs
  simp only [ruleDecision, hr0]
  rfl

theorem c2_low : weighted_prediction [c2_row] < 20 := by
  norm_num [weighted_prediction, weight_total, weighted_sum, station_weight, c2_row, max_def]

/-- Witness for C2: `c2_station` with reading 45 fires rule 1, but the
weighted prediction 10 is LOW-banded, so the surfaced decision is the
suppressed default entry. -/
theorem c2_suppression_witness :
    (("Toronto", [c2_row]) ∈ groupByCity (stationResults [c2_station] [("s1", 45)])) ∧
    (ruleDecision [] [c2_row]).isSome ∧
    weighted_prediction [c2_row] < 20 ∧
    (evaluate [c2_station] [("s1", 45)] []).city_alerts.lookup "Toronto" =
      some { alert := false, rule := none, trigger_stations := [],
             predicted_pm25 := round1 (weighted_prediction [c2_row]),
             weighted_pm25 := round1 (weighted_prediction [c2_row]),
             max_pm25 := round1 ((([c2_row].map (fun r => r.predicted)).max?).getD 0),
             level_name := "LOW", level_hex := "#22c55e", level_text_color := "black",
             health := "No significant risk. No action required." } := by
  have hmem : ("Toronto", [c2_row]) ∈ groupByCity (stationResults [c2_station] [("s1", 45)]) := by
    rw [c2_stationResults, c2_group]
    simp
  exact ⟨hmem, c2_fire, c2_low,
    c2_low_weighted_suppression [c2_station] [("s1", 45)] [] "Toronto" [c2_row]
      hmem c2_fire c2_low⟩

/-- A corridor station row (tier 2, 350 km, reading 50), for the C4 witness. -/
def corridorRow : StationResult :=
  { station := "Corridor", id := "c1", dist := 350, dir := "W", tier := 2, R := 1/2,
    pm25 := 50, predicted := 50, level_name := "MODERATE", level_hex := "",
    level_text_color := "", health := "", lead := "", target_city := "T" }

/-- Witness for C4: with a regional rule-1 trigger and a corridor rule-3
trigger both present, the decision is `rule1`. -/
theorem c4_priority_witness :
    (∃ r ∈ [sampleRowR5, corridorRow], r.tier = 1 ∧ r.dist ≤ 600 ∧ RULE1_TRIGGER ≤ r.pm25) ∧
    (∃ r ∈ [sampleRowR5, corridorRow], 2 ≤ r.tier ∧ r.dist ≤ 400 ∧
      RULE3_CORRIDOR_TRIGGER ≤ r.pm25) ∧
    (∃ trigs, ruleDecision [] [sampleRowR5, corridorRow] = some ("rule1", trigs)) := by
  have h1 : ∃ r ∈ [sampleRowR5, corridorRow],
      r.tier = 1 ∧ r.dist ≤ 600 ∧ RULE1_TRIGGER ≤ r.pm25 :=
    ⟨sampleRowR5, by simp, by norm_num [sampleRowR5, RULE1_TRIGGER]⟩
  have h3 : ∃ r ∈ [sampleRowR5, corridorRow],
      2 ≤ r.tier ∧ r.dist ≤ 400 ∧ RULE3_CORRIDOR_TRIGGER ≤ r.pm25 :=
    ⟨corridorRow, by simp, by norm_num [corridorRow, RULE3_CORRIDOR_TRIGGER]⟩
  exact ⟨h1, h3, c4_rule1_priority [] [sampleRowR5, corridorRow] h1 h3⟩

/-- A distant station row (700 km, reading 36), for the C3 witness. -/
def distantRow : StationResult :=
  { station := "Distant", id := "d1", dist := 700, dir := "NW", tier := 1, R := 1/2,
    pm25 := 36, predicted := 36, level_name := "MODERATE", level_hex := "",
    level_text_color := "", health := "", lead := "", target_city := "T" }

/-- An intermediate station row (400 km, reading 25), for the C3 witness. -/
def interRow : StationResult :=
  { station := "Inter", id := "i1", dist := 400, dir := "NW", tier := 1, R := 1/2,
    pm25 := 25, predicted := 25, level_name := "MODERATE", level_hex := "",
    level_text_color := "", health := "", lead := "", target_city := "T" }

/-- Witness for C3: a distant trigger (36 ≥ 35 at 700 km) plus a sustained
intermediate confirmation (25 now, 22 in the previous hour at 400 km) fire rule 2. -/
theorem c3_rule2_witness :
    ((¬ ∃ r ∈ [distantRow, interRow], r.tier = 1 ∧ r.dist ≤ 600 ∧ r.pm25 ≥ RULE1_TRIGGER) ∧
      ([("i1", (22:ℚ))] ≠ ([] : List (String × ℚ))) ∧
      (∃ r ∈ [distantRow, interRow], r.dist > 600 ∧ r.pm25 ≥ RULE2_DISTANT_TRIGGER) ∧
      (∃ r ∈ [distantRow, interRow], 200 ≤ r.dist ∧ r.dist ≤ 600 ∧
        r.pm25 ≥ RULE2_INTERMEDIATE ∧
        (List.lookup r.id [("i1", (22:ℚ))]).getD 0 ≥ RULE2_INTERMEDIATE)) ∧
    (∃ t, ruleDecision [("i1", 22)] [distantRow, interRow] = some ("rule2", t)) := by
  have hcond : (¬ ∃ r ∈ [distantRow, interRow],
        r.tier = 1 ∧ r.dist ≤ 600 ∧ r.pm25 ≥ RULE1_TRIGGER) ∧
      ([("i1", (22:ℚ))] ≠ ([] : List (String × ℚ))) ∧
      (∃ r ∈ [distantRow, interRow], r.dist > 600 ∧ r.pm25 ≥ RULE2_DISTANT_TRIGGER) ∧
      (∃ r ∈ [distantRow, interRow], 200 ≤ r.dist ∧ r.dist ≤ 600 ∧
        r.pm25 ≥ RULE2_INTERMEDIATE ∧
        (List.lookup r.id [("i1", (22:ℚ))]).getD 0 ≥ RULE2_INTERMEDIATE) := by
    refine ⟨?_, by simp,
      ⟨distantRow, by simp, by norm_num [distantRow, RULE2_DISTANT_TRIGGER]⟩,
      ⟨interRow, by simp, ?_⟩⟩
    · rintro ⟨r, hr, h1, h2, h3⟩
      rcases List.mem_cons.mp hr with rfl | hr2
      · norm_num [distantRow] at h2
      · rcases List.mem_cons.mp hr2 with rfl | hr3
        · norm_num [interRow, RULE1_TRIGGER] at h3
        · simp at hr3
    · have hlk : List.lookup interRow.id [("i1", (22:ℚ))] = some 22 := rfl
      rw [hlk]
      norm_num [interRow, RULE2_INTERMEDIATE]
  exact ⟨hcond, (c3_rule2_iff [("i1", 22)] [distantRow, interRow]).1.mpr hcond⟩
